import Mathlib

/-
  Verification development for the live-stream platform signalling core.

  The embedding below translates, statement by statement, the two
  Socket.IO relay implementations of the repository and the client-side
  negotiation logic:

  * the room-keyed relay of src/pages/_app.js (lines 405-660): a map
    from stream id to session info (broadcaster id, viewer set, active
    flag), per-socket data (streamId, viewerId, isBroadcaster), and
    Socket.IO rooms; handlers for start-stream, join-stream,
    leave-stream, offer, answer, ice-candidate, end-stream and
    disconnect;
  * the global relay of src/pages/api/socket.js (lines 26-175): a map
    from connection id to role and stream id, with broadcast-to-all
    fan-out for offers and target-based ice-candidate routing;
  * the broadcaster-side peer-connection table of src/pages/broadcast.js
    (lines 67-84 and 237-255), used for the candidate-buffering claim.

  JavaScript Maps are modelled as insertion-ordered association lists,
  JS Sets as duplicate-free lists with append-if-absent insertion, and
  Socket.IO emits as explicit (recipient, event) delivery lists:
  socket.to(room).emit delivers to the members of the room other than
  the sender, io.to(id).emit delivers to the socket with that id when
  it is connected, socket.broadcast.emit delivers to every connected
  socket other than the sender.
-/

namespace LiveStream

/-- Lookup in an insertion-ordered association list (JS Map.get). -/
def alookup {β : Type} : List (String × β) → String → Option β
  | [], _ => none
  | p :: rest, k => if p.1 = k then some p.2 else alookup rest k

/-- Update or append in an association list (JS Map.set keeps insertion
order and appends unknown keys). -/
def aupdate {β : Type} : List (String × β) → String → β → List (String × β)
  | [], k, v => [(k, v)]
  | p :: rest, k, v => if p.1 = k then (k, v) :: rest else p :: aupdate rest k v

/-- Remove a key from an association list (JS Map.delete; a Map never
holds a key twice, so dropping every occurrence coincides with it). -/
def aremove {β : Type} : List (String × β) → String → List (String × β)
  | [], _ => []
  | p :: rest, k => if p.1 = k then aremove rest k else p :: aremove rest k

/-- Add an element to a duplicate-free list (JS Set.add: no-op when the
element is already present, append otherwise). -/
def setAdd (l : List String) (x : String) : List String :=
  if x ∈ l then l else l ++ [x]

/-- Remove the occurrence of an element (JS Set.delete). -/
def removeId : List String → String → List String
  | [], _ => []
  | y :: t, x => if y = x then t else y :: removeId t x

/-- Drop every occurrence of an id from a list; used for the
except-the-sender filtering of socket.to(room).emit. -/
def exceptId : List String → String → List String
  | [], _ => []
  | y :: t, x => if y = x then exceptId t x else y :: exceptId t x

/-- Number of occurrences of an id in a list. -/
def countId : List String → String → Nat
  | [], _ => 0
  | y :: t, x => (if y = x then 1 else 0) + countId t x

/-- JavaScript truthiness of an optional string: undefined and the
empty string are falsy. -/
def truthy : Option String → Bool
  | none => false
  | some s => s ≠ ""

/-- The wire payload of offer, answer and ice-candidate messages,
mirroring the SignalingData interface of src/types.ts field by field
(there is no fromId field in that interface). -/
structure SignalingData where
  type : String
  sdp : Option String := none
  candidate : Option String := none
  streamId : Option String := none
  viewerId : Option String := none
deriving DecidableEq

/-- A server-to-client event of the room-keyed relay, mirroring the
ServerToClientEvents interface of src/types.ts. -/
inductive ServerEvent
  | offer (d : SignalingData)
  | answer (d : SignalingData)
  | iceCandidate (d : SignalingData)
  | endStreamMsg
  | viewerCount (n : Nat)
  | streamStatus (active : Bool)
  | errorMsg (msg : String)
deriving DecidableEq

/-- One entry of the activeStreams map of src/pages/_app.js (lines
432-436): broadcaster id, viewer set and active flag. -/
structure StreamInfo where
  broadcasterId : String
  viewers : List String
  isActive : Bool
deriving DecidableEq

/-- The socket.data fields used by the room-keyed relay
(streamId, viewerId, isBroadcaster), all initially unset. -/
structure ConnData where
  streamId : Option String := none
  viewerId : Option String := none
  isBroadcaster : Bool := false
deriving DecidableEq

/-- The full observable server state of the room-keyed relay:
the activeStreams map, the per-socket data of the connected sockets,
and the Socket.IO room membership lists. -/
structure ServerState where
  activeStreams : List (String × StreamInfo)
  conns : List (String × ConnData)
  rooms : List (String × List String)
deriving DecidableEq

def initialState : ServerState := ⟨[], [], []⟩

/-- A delivery: recipient socket id paired with the event it receives. -/
abbrev Delivery := String × ServerEvent

def lookupStream (st : ServerState) (s : String) : Option StreamInfo :=
  alookup st.activeStreams s

def getConn (st : ServerState) (sid : String) : ConnData :=
  (alookup st.conns sid).getD ⟨none, none, false⟩

def connected (st : ServerState) (sid : String) : Bool :=
  (alookup st.conns sid).isSome

def roomMembers (st : ServerState) (r : String) : List String :=
  (alookup st.rooms r).getD []

def setConn (st : ServerState) (sid : String) (c : ConnData) : ServerState :=
  { st with conns := aupdate st.conns sid c }

def setStream (st : ServerState) (s : String) (info : StreamInfo) : ServerState :=
  { st with activeStreams := aupdate st.activeStreams s info }

def removeStream (st : ServerState) (s : String) : ServerState :=
  { st with activeStreams := aremove st.activeStreams s }

def joinRoom (st : ServerState) (sid r : String) : ServerState :=
  { st with rooms := aupdate st.rooms r (setAdd (roomMembers st r) sid) }

def leaveRoom (st : ServerState) (sid r : String) : ServerState :=
  { st with rooms := aupdate st.rooms r (removeId (roomMembers st r) sid) }

/-- On disconnect Socket.IO removes the socket from every room before
the user-level disconnect handler runs. -/
def leaveAllRooms (st : ServerState) (sid : String) : ServerState :=
  { st with rooms := st.rooms.map (fun p => (p.1, removeId p.2 sid)) }

/-- socket.to(room).emit: deliver to every member of the room other
than the sender. -/
def emitRoom (st : ServerState) (r sender : String) (ev : ServerEvent) : List Delivery :=
  (exceptId (roomMembers st r) sender).map (fun m => (m, ev))

/-- io.to(id).emit: deliver to the socket with that id when it is
connected (each connected socket sits in the room of its own id),
silently dropped otherwise. -/
def emitTo (st : ServerState) (target : String) (ev : ServerEvent) : List Delivery :=
  if connected st target then [(target, ev)] else []

/-- The connection handler of src/pages/_app.js (line 464): the new
socket is recorded with empty socket.data. -/
def handleConnect (st : ServerState) (sid : String) : ServerState × List Delivery :=
  (setConn st sid ⟨none, none, false⟩, [])

/-- The start-stream handler of src/pages/_app.js lines 468-495:
mark the socket as broadcaster of the stream, create the session
(empty viewer set, active) or overwrite its broadcaster id and active
flag, join the stream room, and send stream-status(true) to the other
members of the room. -/
def handleStartStream (st : ServerState) (sid streamId : String) :
    ServerState × List Delivery :=
  let c := getConn st sid
  let st1 := setConn st sid { c with streamId := some streamId, isBroadcaster := true }
  let st2 :=
    match lookupStream st1 streamId with
    | none => setStream st1 streamId ⟨sid, [], true⟩
    | some info => setStream st1 streamId { info with broadcasterId := sid, isActive := true }
  let st3 := joinRoom st2 sid streamId
  (st3, emitRoom st3 streamId sid (ServerEvent.streamStatus true))

/-- The join-stream handler of src/pages/_app.js lines 498-527: mark
the socket as viewer, join the stream room; when the session exists,
add the socket to the viewer set, send viewer-count to the stored
broadcaster and, when the session is active, stream-status(true) to
the joining viewer; when the session is absent, only send
stream-status(false) to the joining viewer (no session is created). -/
def handleJoinStream (st : ServerState) (sid streamId : String) :
    ServerState × List Delivery :=
  let c := getConn st sid
  let st1 := setConn st sid
    { c with streamId := some streamId, viewerId := some sid, isBroadcaster := false }
  let st2 := joinRoom st1 sid streamId
  match lookupStream st2 streamId with
  | some info =>
      let info2 := { info with viewers := setAdd info.viewers sid }
      let st3 := setStream st2 streamId info2
      let ds1 := emitTo st3 info2.broadcasterId (ServerEvent.viewerCount info2.viewers.length)
      let ds2 := if info2.isActive then [(sid, ServerEvent.streamStatus true)] else []
      (st3, ds1 ++ ds2)
  | none => (st2, [(sid, ServerEvent.streamStatus false)])

/-- The leave-stream handler of src/pages/_app.js lines 530-542:
leave the room; when the session exists, remove the socket from the
viewer set and send the new viewer-count to the stored broadcaster. -/
def handleLeaveStream (st : ServerState) (sid streamId : String) :
    ServerState × List Delivery :=
  let st1 := leaveRoom st sid streamId
  match lookupStream st1 streamId with
  | some info =>
      let info2 := { info with viewers := removeId info.viewers sid }
      let st2 := setStream st1 streamId info2
      (st2, emitTo st2 info2.broadcasterId (ServerEvent.viewerCount info2.viewers.length))
  | none => (st1, [])

/-- The offer handler of src/pages/_app.js lines 545-556: when the
message carries a truthy streamId naming an existing session, forward
the payload unchanged to the members of the stream room other than the
sender; otherwise do nothing. -/
def handleOffer (st : ServerState) (sid : String) (d : SignalingData) :
    ServerState × List Delivery :=
  match d.streamId with
  | some s =>
      if s ≠ "" ∧ (lookupStream st s).isSome
      then (st, emitRoom st s sid (ServerEvent.offer d))
      else (st, [])
  | none => (st, [])

/-- The answer handler of src/pages/_app.js lines 559-573: when the
message carries a truthy streamId naming an existing session, forward
the payload, with viewerId overwritten by the sender id, to the stored
broadcaster. -/
def handleAnswer (st : ServerState) (sid : String) (d : SignalingData) :
    ServerState × List Delivery :=
  match d.streamId with
  | some s =>
      match lookupStream st s with
      | some info =>
          if s ≠ ""
          then (st, emitTo st info.broadcasterId
                  (ServerEvent.answer { d with viewerId := some sid }))
          else (st, [])
      | none => (st, [])
  | none => (st, [])

/-- The ice-candidate handler of src/pages/_app.js lines 576-593: with
a truthy streamId naming an existing session, a candidate from a
socket flagged isBroadcaster is forwarded unchanged to the stream room
members other than the sender, and a candidate from any other socket
is forwarded, tagged with viewerId = sender, to the stored
broadcaster. -/
def handleIceCandidate (st : ServerState) (sid : String) (d : SignalingData) :
    ServerState × List Delivery :=
  match d.streamId with
  | some s =>
      match lookupStream st s with
      | some info =>
          if s ≠ "" then
            if (getConn st sid).isBroadcaster
            then (st, emitRoom st s sid (ServerEvent.iceCandidate d))
            else (st, emitTo st info.broadcasterId
                    (ServerEvent.iceCandidate { d with viewerId := some sid }))
          else (st, [])
      | none => (st, [])
  | none => (st, [])

/-- The end-stream handler of src/pages/_app.js lines 596-612: when
the session exists it is marked inactive, end-stream and
stream-status(false) are sent to the room members other than the
sender, and the session is deleted; the requester is never compared
with the stored broadcaster id and no error is ever emitted. -/
def handleEndStream (st : ServerState) (sid streamId : String) :
    ServerState × List Delivery :=
  match lookupStream st streamId with
  | some info =>
      let st1 := setStream st streamId { info with isActive := false }
      let ds := emitRoom st1 streamId sid ServerEvent.endStreamMsg ++
                emitRoom st1 streamId sid (ServerEvent.streamStatus false)
      (removeStream st1 streamId, ds)
  | none => (st, [])

/-- The disconnect handler of src/pages/_app.js lines 615-643. The
socket has already left its rooms when the handler runs. When
socket.data.streamId is truthy and names an existing session: the
broadcaster branch marks the session inactive, notifies the room with
end-stream and stream-status(false) and deletes the session; the
viewer branch removes the socket from the viewer set and sends the new
viewer-count to the stored broadcaster. Finally the connection is
dropped. -/
def handleDisconnect (st : ServerState) (sid : String) :
    ServerState × List Delivery :=
  let st0 := leaveAllRooms st sid
  let c := getConn st0 sid
  let res :=
    match c.streamId with
    | some s =>
        if s ≠ "" then
          match lookupStream st0 s with
          | some info =>
              if c.isBroadcaster then
                let st1 := setStream st0 s { info with isActive := false }
                let ds := emitRoom st1 s sid ServerEvent.endStreamMsg ++
                          emitRoom st1 s sid (ServerEvent.streamStatus false)
                (removeStream st1 s, ds)
              else
                let info2 := { info with viewers := removeId info.viewers sid }
                let st1 := setStream st0 s info2
                (st1, emitTo st1 info2.broadcasterId
                        (ServerEvent.viewerCount info2.viewers.length))
          | none => (st0, [])
        else (st0, [])
    | none => (st0, [])
  ({ res.1 with conns := aremove res.1.conns sid }, res.2)

/-- The inbound events the room-keyed relay reacts to. -/
inductive ClientEvent
  | connect (sid : String)
  | startStream (sid streamId : String)
  | joinStream (sid streamId : String)
  | leaveStream (sid streamId : String)
  | offerMsg (sid : String) (d : SignalingData)
  | answerMsg (sid : String) (d : SignalingData)
  | iceMsg (sid : String) (d : SignalingData)
  | endStreamReq (sid streamId : String)
  | disconnect (sid : String)
deriving DecidableEq

/-- Dispatch one inbound event to its handler; the relay is
single-threaded, each event is handled to completion. -/
def step (st : ServerState) : ClientEvent → ServerState × List Delivery
  | ClientEvent.connect sid => handleConnect st sid
  | ClientEvent.startStream sid s => handleStartStream st sid s
  | ClientEvent.joinStream sid s => handleJoinStream st sid s
  | ClientEvent.leaveStream sid s => handleLeaveStream st sid s
  | ClientEvent.offerMsg sid d => handleOffer st sid d
  | ClientEvent.answerMsg sid d => handleAnswer st sid d
  | ClientEvent.iceMsg sid d => handleIceCandidate st sid d
  | ClientEvent.endStreamReq sid s => handleEndStream st sid s
  | ClientEvent.disconnect sid => handleDisconnect st sid

def stepState (st : ServerState) (e : ClientEvent) : ServerState :=
  (step st e).1

def runState (st : ServerState) (evs : List ClientEvent) : ServerState :=
  evs.foldl stepState st

/-- The broadcaster id recorded for a stream, when the session exists. -/
def broadcasterOf (st : ServerState) (s : String) : Option String :=
  (lookupStream st s).map (fun i => i.broadcasterId)

/-- The active flag recorded for a stream, when the session exists. -/
def activeOf (st : ServerState) (s : String) : Option Bool :=
  (lookupStream st s).map (fun i => i.isActive)

/-- The viewer set recorded for a stream (empty when absent). -/
def viewersOf (st : ServerState) (s : String) : List String :=
  ((lookupStream st s).map (fun i => i.viewers)).getD []

/-- The viewer count of a stream: the size of the viewer set, 0 when
the session is absent (stream.viewers.size in the handlers). -/
def viewerCountFn (st : ServerState) (s : String) : Nat :=
  match lookupStream st s with
  | some info => info.viewers.length
  | none => 0

example : broadcasterOf (runState initialState
    [ClientEvent.connect "b", ClientEvent.startStream "b" "s"]) "s" = some "b" := by
  decide

/-
  The global relay of src/pages/api/socket.js (lines 26-175): it keeps
  a Map from connection id to a record with a role (broadcaster,
  viewer or null) and a stream id, and routes signalling messages by
  socket.broadcast.emit (every connected socket except the sender) or
  socket.to(id).emit (unicast by id, a silent no-op when no such
  socket is connected).
-/

inductive GRole
  | broadcaster
  | viewer
deriving DecidableEq

/-- One entry of the connections map of src/pages/api/socket.js
(lines 29-34): role (null until assigned) and stream id. -/
structure GConn where
  role : Option GRole := none
  streamId : Option String := none
deriving DecidableEq

/-- The state of the global relay: the connections map. -/
structure GState where
  connections : List (String × GConn)
deriving DecidableEq

/-- A server-to-client event of the global relay. -/
inductive GEvent
  | streamAvailable (broadcasterId : String) (streamId : Option String)
  | offer (sdp : String) (broadcasterId : String)
  | iceCandidate (candidate : String) (fromId : String)
deriving DecidableEq

abbrev GDelivery := String × GEvent

def gconnected (gs : GState) (sid : String) : Bool :=
  (alookup gs.connections sid).isSome

/-- socket.broadcast.emit: every connected socket except the sender. -/
def gbroadcastAll (gs : GState) (sender : String) (ev : GEvent) : List GDelivery :=
  (exceptId (gs.connections.map (fun p => p.1)) sender).map (fun m => (m, ev))

/-- socket.to(id).emit: the socket sits in the room named by its own
id, and socket.to excludes the sender; a target that is not connected
receives nothing and no error is raised. -/
def gunicast (gs : GState) (target sender : String) (ev : GEvent) : List GDelivery :=
  if gconnected gs target ∧ target ≠ sender then [(target, ev)] else []

/-- The connection handler of src/pages/api/socket.js lines 26-34:
record the socket with null role and null stream id. -/
def ghandleConnect (gs : GState) (sid : String) : GState × List GDelivery :=
  (⟨aupdate gs.connections sid ⟨none, none⟩⟩, [])

/-- The start-broadcast handler of src/pages/api/socket.js lines
41-59: set the role to broadcaster and the stream id to the supplied
one (falling back to the default), then announce stream-available to
every other connected socket. -/
def ghandleStartBroadcast (gs : GState) (sid : String) (streamId : Option String) :
    GState × List GDelivery :=
  let s := match streamId with
    | some t => if t ≠ "" then t else "default"
    | none => "default"
  let gs1 : GState :=
    match alookup gs.connections sid with
    | some _ => ⟨aupdate gs.connections sid ⟨some GRole.broadcaster, some s⟩⟩
    | none => gs
  (gs1, gbroadcastAll gs1 sid (GEvent.streamAvailable sid (some s)))

/-- The join-as-viewer handler of src/pages/api/socket.js lines
86-109: set the role to viewer; when some connection has the
broadcaster role (the first in map order), tell the joining viewer
that a stream is available. -/
def ghandleJoinAsViewer (gs : GState) (sid : String) : GState × List GDelivery :=
  let gs1 : GState :=
    match alookup gs.connections sid with
    | some c => ⟨aupdate gs.connections sid { c with role := some GRole.viewer }⟩
    | none => gs
  match gs1.connections.find? (fun p => p.2.role = some GRole.broadcaster) with
  | some p => (gs1, [(sid, GEvent.streamAvailable p.1 p.2.streamId)])
  | none => (gs1, [])

/-- The offer handler of src/pages/api/socket.js lines 117-125: the
offer is re-emitted to every connected socket except the sender,
wrapped with broadcasterId = sender. -/
def ghandleOffer (gs : GState) (sid : String) (sdp : String) :
    GState × List GDelivery :=
  (gs, gbroadcastAll gs sid (GEvent.offer sdp sid))

/-- The ice-candidate handler of src/pages/api/socket.js lines
139-155: with a truthy targetId the candidate is unicast to that id,
tagged fromId = sender (a silent no-op when the target is gone);
otherwise it is broadcast to every connected socket except the
sender, regardless of roles or sessions. -/
def ghandleIceCandidate (gs : GState) (sid : String) (candidate : String)
    (targetId : Option String) : GState × List GDelivery :=
  match targetId with
  | some t =>
      if t ≠ ""
      then (gs, gunicast gs t sid (GEvent.iceCandidate candidate sid))
      else (gs, gbroadcastAll gs sid (GEvent.iceCandidate candidate sid))
  | none => (gs, gbroadcastAll gs sid (GEvent.iceCandidate candidate sid))

/-
  The broadcaster-side negotiation state of src/pages/broadcast.js:
  peerConnectionsRef maps viewer ids to RTCPeerConnection objects.
  For candidate handling the observable state of one peer connection
  is whether a remote description has been applied and which
  candidates have been passed to addIceCandidate, in order.
-/

/-- Observable negotiation state of one per-viewer RTCPeerConnection:
whether setRemoteDescription has run and the candidates applied so
far, in application order. -/
structure PeerConn where
  remoteSet : Bool
  applied : List String
deriving DecidableEq

/-- The broadcaster page state: the per-viewer peer-connection map
(src/pages/broadcast.js line 20). There is no candidate buffer
anywhere in the page. -/
structure BroadcasterClient where
  peers : List (String × PeerConn)
deriving DecidableEq

/-- The events the broadcaster page reacts to during negotiation. -/
inductive BClientEvent
  | viewerRequesting (viewerId : String)
  | answerFrom (viewerId : String)
  | iceFrom (fromId : String) (candidate : String)
deriving DecidableEq

/-- One step of the broadcaster page:
viewer-requesting-stream (lines 221-223, 237-241) creates a fresh
peer connection for the viewer; answer (lines 67-74) applies the
remote description when the peer connection exists; ice-candidate
(lines 77-84) calls addIceCandidate immediately whenever the peer
connection exists and the candidate is truthy — whether or not a
remote description has been applied — and silently drops the
candidate otherwise. -/
def bstep (cl : BroadcasterClient) : BClientEvent → BroadcasterClient
  | BClientEvent.viewerRequesting v => ⟨aupdate cl.peers v ⟨false, []⟩⟩
  | BClientEvent.answerFrom v =>
      match alookup cl.peers v with
      | some pc => ⟨aupdate cl.peers v { pc with remoteSet := true }⟩
      | none => cl
  | BClientEvent.iceFrom v c =>
      match alookup cl.peers v with
      | some pc =>
          if c ≠ ""
          then ⟨aupdate cl.peers v { pc with applied := pc.applied ++ [c] }⟩
          else cl
      | none => cl

def brun (cl : BroadcasterClient) (evs : List BClientEvent) : BroadcasterClient :=
  evs.foldl bstep cl

/-
  Shared concrete states used by witnesses and counterexamples: a
  broadcaster b streaming "s" with one registered viewer v, and the
  corresponding population of the global relay.
-/

def baseTrace : List ClientEvent :=
  [ClientEvent.connect "b", ClientEvent.startStream "b" "s",
   ClientEvent.connect "v", ClientEvent.joinStream "v" "s"]

/-- Relay state after: b connects and starts stream s, v connects and
joins stream s. -/
def baseState : ServerState := runState initialState baseTrace

example : baseState =
    ⟨[("s", ⟨"b", ["v"], true⟩)],
     [("b", ⟨some "s", none, true⟩), ("v", ⟨some "s", some "v", false⟩)],
     [("s", ["b", "v"])]⟩ := by decide

/-- Global relay state after: B, V, U connect, B starts broadcasting
stream "main", V joins as viewer; U stays unassigned. -/
def baseGState : GState :=
  (ghandleJoinAsViewer
    (ghandleStartBroadcast
      (ghandleConnect (ghandleConnect (ghandleConnect ⟨[]⟩ "B").1 "V").1 "U").1
      "B" (some "main")).1
    "V").1

example : baseGState =
    ⟨[("B", ⟨some GRole.broadcaster, some "main"⟩),
      ("V", ⟨some GRole.viewer, none⟩),
      ("U", ⟨none, none⟩)]⟩ := by decide

/-
  Library of small lemmas about the association-list and set
  operations of the embedding.
-/

theorem alookup_aupdate_self {β : Type} (l : List (String × β)) (k : String) (v : β) :
    alookup (aupdate l k v) k = some v := by
  induction l with
  | nil => simp [aupdate, alookup]
  | cons p rest ih =>
      by_cases h : p.1 = k
      · simp [aupdate, alookup, h]
      · simp [aupdate, alookup, h, ih]

theorem alookup_aupdate_ne {β : Type} (l : List (String × β)) {k k' : String} (v : β)
    (h : k' ≠ k) : alookup (aupdate l k v) k' = alookup l k' := by
  induction l with
  | nil => simp [aupdate, alookup, Ne.symm h]
  | cons p rest ih =>
      by_cases hp : p.1 = k
      · subst hp
        simp [aupdate, alookup, Ne.symm h, ih]
      · simp [aupdate, alookup, hp, ih]

theorem alookup_aremove_self {β : Type} (l : List (String × β)) (k : String) :
    alookup (aremove l k) k = none := by
  induction l with
  | nil => simp [aremove, alookup]
  | cons p rest ih =>
      by_cases h : p.1 = k
      · simp [aremove, h, ih]
      · simp [aremove, alookup, h, ih]

theorem alookup_aremove_ne {β : Type} (l : List (String × β)) {k k' : String}
    (h : k' ≠ k) : alookup (aremove l k) k' = alookup l k' := by
  induction l with
  | nil => simp [aremove]
  | cons p rest ih =>
      by_cases hp : p.1 = k
      · subst hp
        simp [aremove, alookup, Ne.symm h, ih]
      · simp [aremove, alookup, hp, ih]

theorem alookup_removeId_map (rooms : List (String × List String)) (sid r : String) :
    alookup (rooms.map (fun p => (p.1, removeId p.2 sid))) r
      = (alookup rooms r).map (fun l => removeId l sid) := by
  induction rooms with
  | nil => simp [alookup]
  | cons p rest ih =>
      by_cases h : p.1 = r
      · simp [alookup, h]
      · simp [alookup, h, ih]

theorem setAdd_of_mem {l : List String} {x : String} (h : x ∈ l) :
    setAdd l x = l := by simp [setAdd, h]

theorem setAdd_of_not_mem {l : List String} {x : String} (h : x ∉ l) :
    setAdd l x = l ++ [x] := by simp [setAdd, h]

theorem exceptId_append (l l' : List String) (x : String) :
    exceptId (l ++ l') x = exceptId l x ++ exceptId l' x := by
  induction l with
  | nil => simp [exceptId]
  | cons y t ih =>
      by_cases h : y = x <;> simp [exceptId, h, ih]

theorem exceptId_setAdd (l : List String) (x : String) :
    exceptId (setAdd l x) x = exceptId l x := by
  by_cases h : x ∈ l
  · simp [setAdd_of_mem h]
  · simp [setAdd_of_not_mem h, exceptId_append, exceptId]

theorem mem_exceptId {a : String} {l : List String} {x : String} :
    a ∈ exceptId l x ↔ a ∈ l ∧ a ≠ x := by
  induction l with
  | nil => simp [exceptId]
  | cons y t ih =>
      by_cases h : y = x
      · subst h
        have he : exceptId (y :: t) y = exceptId t y := by simp [exceptId]
        rw [he, ih]
        constructor
        · exact fun hh => ⟨List.mem_cons_of_mem y hh.1, hh.2⟩
        · rintro ⟨hmem, hne⟩
          rcases List.mem_cons.mp hmem with rfl | ht
          · exact absurd rfl hne
          · exact ⟨ht, hne⟩
      · have he : exceptId (y :: t) x = y :: exceptId t x := by simp [exceptId, h]
        rw [he]
        constructor
        · intro hmem
          rcases List.mem_cons.mp hmem with rfl | ht
          · exact ⟨List.mem_cons_self a t, h⟩
          · exact ⟨List.mem_cons_of_mem y (ih.mp ht).1, (ih.mp ht).2⟩
        · rintro ⟨hmem, hne⟩
          rcases List.mem_cons.mp hmem with rfl | ht
          · exact List.mem_cons_self a (exceptId t x)
          · exact List.mem_cons_of_mem y (ih.mpr ⟨ht, hne⟩)

theorem removeId_append_self {l : List String} {x : String} (h : x ∉ l) :
    removeId (l ++ [x]) x = l := by
  induction l with
  | nil => simp [removeId]
  | cons y t ih =>
      have hy : y ≠ x := fun hh => h (hh ▸ List.mem_cons_self y t)
      have ht : x ∉ t := fun hh => h (List.mem_cons_of_mem y hh)
      simp [removeId, hy, ih ht]

theorem countId_eq_zero_of_not_mem {l : List String} {x : String} (h : x ∉ l) :
    countId l x = 0 := by
  induction l with
  | nil => rfl
  | cons y t ih =>
      have hy : y ≠ x := fun hh => h (hh ▸ List.mem_cons_self y t)
      have ht : x ∉ t := fun hh => h (List.mem_cons_of_mem y hh)
      simp [countId, hy, ih ht]

theorem countId_eq_one_of_nodup_mem {l : List String} {x : String}
    (hnd : l.Nodup) (hmem : x ∈ l) : countId l x = 1 := by
  induction l with
  | nil => cases hmem
  | cons y t ih =>
      rcases List.nodup_cons.mp hnd with ⟨hy, ht⟩
      rcases List.mem_cons.mp hmem with rfl | hmt
      · simp [countId, countId_eq_zero_of_not_mem hy]
      · have hne : y ≠ x := fun hh => hy (hh ▸ hmt)
        simp [countId, hne, ih ht hmt]

theorem countId_exceptId_of_ne {l : List String} {w x : String} (h : w ≠ x) :
    countId (exceptId l x) w = countId l w := by
  induction l with
  | nil => rfl
  | cons y t ih =>
      by_cases hy : y = x
      · subst hy
        simp [exceptId, countId, Ne.symm h, ih]
      · simp [exceptId, hy, countId, ih]

theorem countId_removeId_of_ne {l : List String} {w x : String} (h : w ≠ x) :
    countId (removeId l x) w = countId l w := by
  induction l with
  | nil => rfl
  | cons y t ih =>
      by_cases hy : y = x
      · subst hy
        simp [removeId, countId, Ne.symm h, ih]
      · simp [removeId, hy, countId, ih]

/-- Number of occurrences of a delivery in a delivery list. -/
def occCount : List Delivery → Delivery → Nat
  | [], _ => 0
  | d :: t, a => (if d = a then 1 else 0) + occCount t a

theorem occCount_append (l l' : List Delivery) (a : Delivery) :
    occCount (l ++ l') a = occCount l a + occCount l' a := by
  induction l with
  | nil => simp [occCount]
  | cons d t ih => simp [occCount, ih]; omega

theorem occCount_map_pair (l : List String) (ev : ServerEvent) (w : String) :
    occCount (l.map (fun m => (m, ev))) (w, ev) = countId l w := by
  induction l with
  | nil => rfl
  | cons y t ih =>
      by_cases h : y = w
      · simp [occCount, countId, h, ih]
      · simp [occCount, countId, h, ih, Prod.ext_iff]

theorem occCount_map_pair_ne (l : List String) {ev e : ServerEvent} (w : String)
    (h : e ≠ ev) : occCount (l.map (fun m => (m, ev))) (w, e) = 0 := by
  induction l with
  | nil => rfl
  | cons y t ih =>
      simp [occCount, ih, Prod.ext_iff, Ne.symm h]

theorem lookupStream_setConn (st : ServerState) (sid : String) (c : ConnData)
    (s : String) : lookupStream (setConn st sid c) s = lookupStream st s := rfl

theorem lookupStream_joinRoom (st : ServerState) (sid r s : String) :
    lookupStream (joinRoom st sid r) s = lookupStream st s := rfl

theorem lookupStream_leaveRoom (st : ServerState) (sid r s : String) :
    lookupStream (leaveRoom st sid r) s = lookupStream st s := rfl

theorem lookupStream_leaveAllRooms (st : ServerState) (sid s : String) :
    lookupStream (leaveAllRooms st sid) s = lookupStream st s := rfl

theorem lookupStream_setStream_self (st : ServerState) (s : String) (info : StreamInfo) :
    lookupStream (setStream st s info) s = some info :=
  alookup_aupdate_self st.activeStreams s info

theorem lookupStream_setStream_ne (st : ServerState) {s s' : String} (info : StreamInfo)
    (h : s' ≠ s) : lookupStream (setStream st s info) s' = lookupStream st s' :=
  alookup_aupdate_ne st.activeStreams info h

theorem lookupStream_removeStream_self (st : ServerState) (s : String) :
    lookupStream (removeStream st s) s = none :=
  alookup_aremove_self st.activeStreams s

theorem roomMembers_setConn (st : ServerState) (sid : String) (c : ConnData)
    (r : String) : roomMembers (setConn st sid c) r = roomMembers st r := rfl

theorem roomMembers_setStream (st : ServerState) (s : String) (info : StreamInfo)
    (r : String) : roomMembers (setStream st s info) r = roomMembers st r := rfl

theorem roomMembers_removeStream (st : ServerState) (s r : String) :
    roomMembers (removeStream st s) r = roomMembers st r := rfl

theorem roomMembers_joinRoom_self (st : ServerState) (sid r : String) :
    roomMembers (joinRoom st sid r) r = setAdd (roomMembers st r) sid := by
  simp [roomMembers, joinRoom, alookup_aupdate_self]

theorem roomMembers_leaveAllRooms (st : ServerState) (sid r : String) :
    roomMembers (leaveAllRooms st sid) r = removeId (roomMembers st r) sid := by
  cases h : alookup st.rooms r with
  | none => simp [roomMembers, leaveAllRooms, alookup_removeId_map, h, removeId]
  | some l => simp [roomMembers, leaveAllRooms, alookup_removeId_map, h]

theorem getConn_leaveAllRooms (st : ServerState) (sid sid' : String) :
    getConn (leaveAllRooms st sid) sid' = getConn st sid' := rfl

theorem activeStreams_setConn (st : ServerState) (sid : String) (c : ConnData) :
    (setConn st sid c).activeStreams = st.activeStreams := rfl

theorem activeStreams_joinRoom (st : ServerState) (sid r : String) :
    (joinRoom st sid r).activeStreams = st.activeStreams := rfl

theorem activeStreams_leaveRoom (st : ServerState) (sid r : String) :
    (leaveRoom st sid r).activeStreams = st.activeStreams := rfl

theorem lookupStream_conns_update (st : ServerState) (cs : List (String × ConnData))
    (s : String) : lookupStream { st with conns := cs } s = lookupStream st s := rfl

theorem viewersOf_eq (st : ServerState) {s : String} {info : StreamInfo}
    (h : lookupStream st s = some info) : viewersOf st s = info.viewers := by
  simp [viewersOf, h]

/-- Event discriminator: is the event a viewer-count message. -/
def isViewerCountEv : ServerEvent → Bool
  | ServerEvent.viewerCount _ => true
  | _ => false

/-- Event discriminator: is the event an error message. -/
def isErrorEv : ServerEvent → Bool
  | ServerEvent.errorMsg _ => true
  | _ => false

/-
  Behaviour of the individual handlers, as lemmas reused by the claim
  theorems below.
-/

/-- start-stream updates the registry: the sender becomes the stored
broadcaster, the session becomes active, the viewer set is kept. -/
theorem startStream_registry (st : ServerState) (sid s : String) :
    broadcasterOf (handleStartStream st sid s).1 s = some sid ∧
    activeOf (handleStartStream st sid s).1 s = some true ∧
    viewersOf (handleStartStream st sid s).1 s = viewersOf st s := by
  cases h : lookupStream st s with
  | none =>
      simp [handleStartStream, lookupStream_setConn, h, broadcasterOf, activeOf,
            viewersOf, lookupStream_joinRoom, lookupStream_setStream_self]
  | some info =>
      simp [handleStartStream, lookupStream_setConn, h, broadcasterOf, activeOf,
            viewersOf, lookupStream_joinRoom, lookupStream_setStream_self]

/-- start-stream sends exactly one stream-status(true) to each room
member other than the sender, and nothing else. -/
theorem startStream_deliveries (st : ServerState) (sid s : String) :
    (handleStartStream st sid s).2 =
      (exceptId (roomMembers st s) sid).map
        (fun m => (m, ServerEvent.streamStatus true)) := by
  cases h : lookupStream st s with
  | none =>
      simp [handleStartStream, lookupStream_setConn, h, emitRoom,
            roomMembers_joinRoom_self, roomMembers_setStream, roomMembers_setConn,
            exceptId_setAdd]
  | some info =>
      simp [handleStartStream, lookupStream_setConn, h, emitRoom,
            roomMembers_joinRoom_self, roomMembers_setStream, roomMembers_setConn,
            exceptId_setAdd]

/-- join-stream on an absent session: registry untouched, the caller
alone receives stream-status(false). -/
theorem joinStream_absent (st : ServerState) (sid s : String)
    (h : lookupStream st s = none) :
    (handleJoinStream st sid s).1.activeStreams = st.activeStreams ∧
    (handleJoinStream st sid s).2 = [(sid, ServerEvent.streamStatus false)] := by
  simp [handleJoinStream, lookupStream_setConn, lookupStream_joinRoom, h,
        activeStreams_joinRoom, activeStreams_setConn]

/-- join-stream on an existing session: the sender is added to the
viewer set, and any viewer-count delivery goes to the stored
broadcaster and carries the size of the updated viewer set. -/
theorem joinStream_present (st : ServerState) (sid s : String) (info : StreamInfo)
    (h : lookupStream st s = some info) :
    lookupStream (handleJoinStream st sid s).1 s
      = some { info with viewers := setAdd info.viewers sid } ∧
    ∀ t n, (t, ServerEvent.viewerCount n) ∈ (handleJoinStream st sid s).2 →
      t = info.broadcasterId ∧ n = (setAdd info.viewers sid).length := by
  constructor
  · simp [handleJoinStream, lookupStream_setConn, lookupStream_joinRoom, h,
          lookupStream_setStream_self]
  · intro t n hmem
    simp only [handleJoinStream, lookupStream_setConn, lookupStream_joinRoom, h,
               emitTo] at hmem
    rcases List.mem_append.mp hmem with h1 | h2
    · split at h1
      · rcases List.mem_singleton.mp h1 with heq
        refine ⟨congrArg Prod.fst heq, ?_⟩
        have := congrArg Prod.snd heq
        simpa using this
      · cases h1
    · split at h2
      · rcases List.mem_singleton.mp h2 with heq
        have := congrArg Prod.snd heq
        simp at this
      · cases h2

/-- leave-stream on an absent session: registry untouched, nothing
delivered. -/
theorem leaveStream_absent (st : ServerState) (sid s : String)
    (h : lookupStream st s = none) :
    (handleLeaveStream st sid s).1.activeStreams = st.activeStreams ∧
    (handleLeaveStream st sid s).2 = [] := by
  simp [handleLeaveStream, lookupStream_leaveRoom, h, activeStreams_leaveRoom]

/-- leave-stream on an existing session: the sender is removed from
the viewer set, and any viewer-count delivery goes to the stored
broadcaster and carries the size of the updated viewer set. -/
theorem leaveStream_present (st : ServerState) (sid s : String) (info : StreamInfo)
    (h : lookupStream st s = some info) :
    lookupStream (handleLeaveStream st sid s).1 s
      = some { info with viewers := removeId info.viewers sid } ∧
    ∀ t n, (t, ServerEvent.viewerCount n) ∈ (handleLeaveStream st sid s).2 →
      t = info.broadcasterId ∧ n = (removeId info.viewers sid).length := by
  constructor
  · simp [handleLeaveStream, lookupStream_leaveRoom, h, lookupStream_setStream_self]
  · intro t n hmem
    simp only [handleLeaveStream, lookupStream_leaveRoom, h, emitTo] at hmem
    split at hmem
    · rcases List.mem_singleton.mp hmem with heq
      refine ⟨congrArg Prod.fst heq, ?_⟩
      have := congrArg Prod.snd heq
      simpa using this
    · cases hmem

/-
  Claim theorems.
-/

/-- Claim C2: over any sequence of relay events, at most one
connection is recorded as a session's broadcaster at every instant
between handler executions, and a later start-stream for the same
stream id replaces the stored broadcaster id (last-writer-wins) and
sets the active flag. -/
theorem C2_single_broadcaster_last_writer_wins :
    (∀ (st : ServerState) (evs : List ClientEvent) (s c1 c2 : String),
        broadcasterOf (runState st evs) s = some c1 →
        broadcasterOf (runState st evs) s = some c2 → c1 = c2) ∧
    (∀ (st : ServerState) (sid s : String),
        broadcasterOf (stepState st (ClientEvent.startStream sid s)) s = some sid ∧
        activeOf (stepState st (ClientEvent.startStream sid s)) s = some true) := by
  constructor
  · intro st evs s c1 c2 h1 h2
    rw [h1] at h2
    exact Option.some.inj h2
  · intro st sid s
    have h := startStream_registry st sid s
    exact ⟨h.1, h.2.1⟩

def c2Trace : List ClientEvent :=
  [ClientEvent.connect "a", ClientEvent.startStream "a" "s",
   ClientEvent.connect "b", ClientEvent.startStream "b" "s"]

/-- Witness for C2 at a concrete trace with two competing
start-stream requests: the second writer holds the session. -/
theorem C2_witness :
    "b" = "b" ∧
    broadcasterOf (stepState initialState (ClientEvent.startStream "x" "s")) "s"
      = some "x" :=
  ⟨C2_single_broadcaster_last_writer_wins.1 initialState c2Trace "s" "b" "b"
      (by decide) (by decide),
   (C2_single_broadcaster_last_writer_wins.2 initialState "x" "s").1⟩

/-- Claim C5: the viewer count of an absent session is 0; every
viewer-count value the join and leave handlers deliver equals the
size of the viewer set the registry holds afterwards; and a join
followed by a leave, by a connection not in the viewer set, returns
the count to its prior value. -/
theorem C5_viewer_count_consistency :
    (∀ (st : ServerState) (s : String),
        lookupStream st s = none → viewerCountFn st s = 0) ∧
    (∀ (st : ServerState) (sid s t : String) (n : Nat),
        (t, ServerEvent.viewerCount n) ∈ (handleJoinStream st sid s).2 →
        n = viewerCountFn (handleJoinStream st sid s).1 s) ∧
    (∀ (st : ServerState) (sid s t : String) (n : Nat),
        (t, ServerEvent.viewerCount n) ∈ (handleLeaveStream st sid s).2 →
        n = viewerCountFn (handleLeaveStream st sid s).1 s) ∧
    (∀ (st : ServerState) (sid s : String), sid ∉ viewersOf st s →
        viewerCountFn (handleLeaveStream (handleJoinStream st sid s).1 sid s).1 s
          = viewerCountFn st s) := by
  refine ⟨?_, ?_, ?_, ?_⟩
  · intro st s h
    simp [viewerCountFn, h]
  · intro st sid s t n hmem
    cases h : lookupStream st s with
    | none =>
        have := (joinStream_absent st sid s h).2
        rw [this] at hmem
        rcases List.mem_singleton.mp hmem with heq
        have := congrArg Prod.snd heq
        simp at this
    | some info =>
        obtain ⟨hlk, hvc⟩ := joinStream_present st sid s info h
        obtain ⟨-, hn⟩ := hvc t n hmem
        simp [viewerCountFn, hlk, hn]
  · intro st sid s t n hmem
    cases h : lookupStream st s with
    | none =>
        have := (leaveStream_absent st sid s h).2
        rw [this] at hmem
        cases hmem
    | some info =>
        obtain ⟨hlk, hvc⟩ := leaveStream_present st sid s info h
        obtain ⟨-, hn⟩ := hvc t n hmem
        simp [viewerCountFn, hlk, hn]
  · intro st sid s hnm
    cases h : lookupStream st s with
    | none =>
        have hj := (joinStream_absent st sid s h).1
        have hj2 : lookupStream (handleJoinStream st sid s).1 s = none := by
          simpa [lookupStream, hj] using h
        have hl := (leaveStream_absent (handleJoinStream st sid s).1 sid s hj2).1
        have hl2 : lookupStream
            (handleLeaveStream (handleJoinStream st sid s).1 sid s).1 s = none := by
          simpa [lookupStream, hl] using hj2
        simp [viewerCountFn, hl2, h]
    | some info =>
        have hnm2 : sid ∉ info.viewers := by
          rw [viewersOf_eq st h] at hnm
          exact hnm
        have hj := (joinStream_present st sid s info h).1
        have hl := (leaveStream_present (handleJoinStream st sid s).1 sid s
          { info with viewers := setAdd info.viewers sid } hj).1
        rw [setAdd_of_not_mem hnm2] at hl
        rw [removeId_append_self hnm2] at hl
        simp [viewerCountFn, hl, h]

/-- Witness for C5 at a concrete state: connection w is not a viewer
of stream s, and joining then leaving leaves the count at its prior
value. -/
theorem C5_witness :
    viewerCountFn
        (handleLeaveStream (handleJoinStream baseState "w" "s").1 "w" "s").1 "s"
      = viewerCountFn baseState "s" :=
  C5_viewer_count_consistency.2.2.2 baseState "w" "s" (by decide)

def st7 : ServerState := stepState initialState (ClientEvent.connect "v")

/-- Counterexample to claim C7 as stated: a viewer joining an absent
stream id does not create any session — the registry still has no
entry for the stream (so certainly none with active=false and viewer
count 1); only the stream-status(false) part of the claim holds. -/
theorem C7_counterexample :
    lookupStream (handleJoinStream st7 "v" "main").1 "main" = none ∧
    viewerCountFn (handleJoinStream st7 "v" "main").1 "main" = 0 ∧
    (handleJoinStream st7 "v" "main").2 = [("v", ServerEvent.streamStatus false)] := by
  decide

/-- Claim C7 as amended: join-stream on an absent stream id sends the
caller stream-status(false) and leaves the session registry unchanged
(no session is created, the viewer is not recorded anywhere). -/
theorem C7_amended_join_absent (st : ServerState) (sid s : String)
    (h : lookupStream st s = none) :
    (handleJoinStream st sid s).1.activeStreams = st.activeStreams ∧
    lookupStream (handleJoinStream st sid s).1 s = none ∧
    (handleJoinStream st sid s).2 = [(sid, ServerEvent.streamStatus false)] := by
  obtain ⟨h1, h2⟩ := joinStream_absent st sid s h
  exact ⟨h1, by simpa [lookupStream, h1] using h, h2⟩

/-- Witness for the amended C7 at a concrete state. -/
theorem C7_witness :
    (handleJoinStream st7 "v" "main").1.activeStreams = st7.activeStreams ∧
    lookupStream (handleJoinStream st7 "v" "main").1 "main" = none ∧
    (handleJoinStream st7 "v" "main").2 = [("v", ServerEvent.streamStatus false)] :=
  C7_amended_join_absent st7 "v" "main" (by decide)

/-- Claim C9 (code bug): the clients apply remote ICE candidates with
no buffering. First conjunct: after a viewer requests the stream (the
peer connection exists) a candidate arriving before the answer is
passed to addIceCandidate immediately, while no remote description is
set. Second conjunct: a candidate arriving before the peer connection
exists is dropped outright and is never applied, even after the
remote description is applied. -/
theorem C9_no_candidate_buffering :
    brun ⟨[]⟩ [BClientEvent.viewerRequesting "v", BClientEvent.iceFrom "v" "cand"]
      = ⟨[("v", ⟨false, ["cand"]⟩)]⟩ ∧
    brun ⟨[]⟩ [BClientEvent.iceFrom "v" "cand", BClientEvent.viewerRequesting "v",
               BClientEvent.answerFrom "v"]
      = ⟨[("v", ⟨true, []⟩)]⟩ := by
  decide

/-- Claim C10: a duplicate join by a connection already in the viewer
set leaves the viewer set unchanged, and the viewer-count the handler
reports goes to the stored broadcaster and equals the unchanged
cardinality. -/
theorem C10_duplicate_join_idempotent (st : ServerState) (sid s : String)
    (info : StreamInfo) (h : lookupStream st s = some info)
    (hmem : sid ∈ info.viewers) :
    viewersOf (handleJoinStream st sid s).1 s = info.viewers ∧
    ∀ t n, (t, ServerEvent.viewerCount n) ∈ (handleJoinStream st sid s).2 →
      t = info.broadcasterId ∧ n = info.viewers.length := by
  obtain ⟨hlk, hvc⟩ := joinStream_present st sid s info h
  rw [setAdd_of_mem hmem] at hlk
  constructor
  · simp [viewersOf, hlk]
  · intro t n hm
    obtain ⟨ht, hn⟩ := hvc t n hm
    rw [setAdd_of_mem hmem] at hn
    exact ⟨ht, hn⟩

/-- Witness for C10 at a concrete state: v is already a viewer of s,
and a second join keeps the viewer set at exactly the singleton v. -/
theorem C10_witness :
    viewersOf (handleJoinStream baseState "v" "s").1 "s" = ["v"] :=
  (C10_duplicate_join_idempotent baseState "v" "s" ⟨"b", ["v"], true⟩
    (by decide) (by decide)).1

/-- end-stream on an existing session: the session is deleted and the
deliveries are one end-stream and one stream-status(false) to each
room member other than the sender. -/
theorem endStream_present (st : ServerState) (sid s : String) (info : StreamInfo)
    (h : lookupStream st s = some info) :
    lookupStream (handleEndStream st sid s).1 s = none ∧
    (handleEndStream st sid s).2 =
      (exceptId (roomMembers st s) sid).map (fun m => (m, ServerEvent.endStreamMsg)) ++
      (exceptId (roomMembers st s) sid).map
        (fun m => (m, ServerEvent.streamStatus false)) := by
  simp [handleEndStream, h, emitRoom, roomMembers_setStream,
        lookupStream_removeStream_self]

def endReqState : ServerState := stepState baseState (ClientEvent.connect "c")

/-- Counterexample to claim C1 as stated: c is connected but is not
the broadcaster of stream s (b is), yet the end-stream request from c
deletes the session, delivers end-stream to viewer v, and sends c
nothing at all — in particular no error; the claimed rejection does
not exist in the handler. -/
theorem C1_counterexample :
    broadcasterOf endReqState "s" = some "b" ∧
    lookupStream (handleEndStream endReqState "c" "s").1 "s" = none ∧
    ("v", ServerEvent.endStreamMsg) ∈ (handleEndStream endReqState "c" "s").2 ∧
    (∀ d ∈ (handleEndStream endReqState "c" "s").2, d.1 ≠ "c") ∧
    (∀ d ∈ (handleEndStream endReqState "c" "s").2, isErrorEv d.2 = false) := by
  decide

/-- Claim C1 as amended: an end-stream request for an existing session
from ANY connection — the requester is never compared with the stored
broadcaster id — removes the session, sends end-stream and
stream-status(false) to every member of the session room other than
the requester, sends the requester nothing, and never emits an error
message. -/
theorem C1_amended_end_stream_unauthenticated (st : ServerState) (sid s : String)
    (info : StreamInfo) (h : lookupStream st s = some info) :
    lookupStream (handleEndStream st sid s).1 s = none ∧
    (∀ v, v ∈ roomMembers st s → v ≠ sid →
        (v, ServerEvent.endStreamMsg) ∈ (handleEndStream st sid s).2 ∧
        (v, ServerEvent.streamStatus false) ∈ (handleEndStream st sid s).2) ∧
    (∀ d ∈ (handleEndStream st sid s).2, d.1 ≠ sid) ∧
    (∀ d ∈ (handleEndStream st sid s).2, isErrorEv d.2 = false) := by
  obtain ⟨hnone, hds⟩ := endStream_present st sid s info h
  refine ⟨hnone, ?_, ?_, ?_⟩
  · intro v hv hvne
    have hvx : v ∈ exceptId (roomMembers st s) sid := mem_exceptId.mpr ⟨hv, hvne⟩
    constructor
    · rw [hds]
      exact List.mem_append_left _ (List.mem_map.mpr ⟨v, hvx, rfl⟩)
    · rw [hds]
      exact List.mem_append_right _ (List.mem_map.mpr ⟨v, hvx, rfl⟩)
  · intro d hd
    rw [hds] at hd
    rcases List.mem_append.mp hd with h1 | h1 <;>
      · rcases List.mem_map.mp h1 with ⟨m, hm, rfl⟩
        exact (mem_exceptId.mp hm).2
  · intro d hd
    rw [hds] at hd
    rcases List.mem_append.mp hd with h1 | h1 <;>
      · rcases List.mem_map.mp h1 with ⟨m, hm, rfl⟩
        rfl

/-- Witness for the amended C1 at a concrete state: the non-broadcaster
request deletes the session and notifies viewer v. -/
theorem C1_witness :
    lookupStream (handleEndStream endReqState "c" "s").1 "s" = none ∧
    ("v", ServerEvent.endStreamMsg) ∈ (handleEndStream endReqState "c" "s").2 :=
  have h := C1_amended_end_stream_unauthenticated endReqState "c" "s"
    ⟨"b", ["v"], true⟩ (by decide)
  ⟨h.1, (h.2.1 "v" (by decide) (by decide)).1⟩

/-- Counterexample to claim C4 as stated: stream s has the non-empty
viewer set consisting of v when its broadcaster issues a further
start-stream, yet the handler delivers only stream-status(true) to v
and no viewer-count message to anybody — the claimed viewer-count to
the broadcaster is never sent by the start-stream handler. -/
theorem C4_counterexample :
    viewersOf baseState "s" = ["v"] ∧
    (handleStartStream baseState "b" "s").2 = [("v", ServerEvent.streamStatus true)] ∧
    (∀ d ∈ (handleStartStream baseState "b" "s").2, isViewerCountEv d.2 = false) := by
  decide

/-- Claim C4 as amended: start-stream(S) records the sender as the
broadcaster of the now-active session, keeps the viewer set, and
sends stream-status(true) to every member of the session room other
than the sender — which covers every connected registered viewer —
and sends no other message whatsoever; in particular no viewer-count
is delivered to the broadcaster. -/
theorem C4_amended_start_stream (st : ServerState) (sid s : String) :
    (∀ d ∈ (handleStartStream st sid s).2, d.2 = ServerEvent.streamStatus true) ∧
    (∀ v, v ∈ roomMembers st s → v ≠ sid →
        (v, ServerEvent.streamStatus true) ∈ (handleStartStream st sid s).2) ∧
    broadcasterOf (handleStartStream st sid s).1 s = some sid ∧
    activeOf (handleStartStream st sid s).1 s = some true ∧
    viewersOf (handleStartStream st sid s).1 s = viewersOf st s := by
  have hreg := startStream_registry st sid s
  have hds := startStream_deliveries st sid s
  refine ⟨?_, ?_, hreg.1, hreg.2.1, hreg.2.2⟩
  · intro d hd
    rw [hds] at hd
    rcases List.mem_map.mp hd with ⟨m, hm, rfl⟩
    rfl
  · intro v hv hvne
    rw [hds]
    exact List.mem_map.mpr ⟨v, mem_exceptId.mpr ⟨hv, hvne⟩, rfl⟩

/-- Witness for the amended C4 at a concrete state: v, the only room
member besides the broadcaster, receives stream-status(true), and
every delivery of the handler is a stream-status(true). -/
theorem C4_witness :
    ("v", ServerEvent.streamStatus true) ∈ (handleStartStream baseState "b" "s").2 ∧
    broadcasterOf (handleStartStream baseState "b" "s").1 "s" = some "b" :=
  have h := C4_amended_start_stream baseState "b" "s"
  ⟨h.2.1 "v" (by decide) (by decide), h.2.2.1⟩

/-- disconnect of a socket flagged broadcaster whose socket.data names
an existing session: the session is deleted and each room member
other than the socket receives end-stream and stream-status(false). -/
theorem disconnect_broadcaster_spec (st : ServerState) (b s : String)
    (info : StreamInfo)
    (h1 : (getConn st b).streamId = some s) (h2 : s ≠ "")
    (h3 : (getConn st b).isBroadcaster = true)
    (h4 : lookupStream st s = some info) :
    lookupStream (handleDisconnect st b).1 s = none ∧
    (handleDisconnect st b).2 =
      (exceptId (removeId (roomMembers st s) b) b).map
        (fun m => (m, ServerEvent.endStreamMsg)) ++
      (exceptId (removeId (roomMembers st s) b) b).map
        (fun m => (m, ServerEvent.streamStatus false)) := by
  simp [handleDisconnect, getConn_leaveAllRooms, h1, h2, h3,
        lookupStream_leaveAllRooms, h4, emitRoom, roomMembers_setStream,
        roomMembers_leaveAllRooms, lookupStream_conns_update,
        lookupStream_removeStream_self]

def doubleStartState : ServerState := stepState baseState (ClientEvent.startStream "b" "t")

/-- Counterexample to claim C6 as stated: after b starts stream t
while still being the stored broadcaster of stream s (whose viewer
set is the singleton v), handling the disconnect of b delivers no
message at all — viewer v receives neither end-stream nor
stream-status(false) — and the session for s survives in the
registry. -/
theorem C6_counterexample :
    broadcasterOf doubleStartState "s" = some "b" ∧
    viewersOf doubleStartState "s" = ["v"] ∧
    (handleDisconnect doubleStartState "b").2 = [] ∧
    lookupStream (handleDisconnect doubleStartState "b").1 "s"
      = some ⟨"b", ["v"], true⟩ := by
  decide

/-- Claim C6 as amended: when the disconnecting socket b is flagged
broadcaster and its currently assigned stream id is S (the handler
keys on socket.data.streamId, not on which sessions store b), the
session for S is removed, and every viewer of S — provided it is
still a member of the S room and distinct from b, which holds for
every connected registered viewer — receives exactly one end-stream
and exactly one stream-status(false). -/
theorem C6_amended_broadcaster_disconnect (st : ServerState) (b s : String)
    (info : StreamInfo)
    (h1 : (getConn st b).streamId = some s) (h2 : s ≠ "")
    (h3 : (getConn st b).isBroadcaster = true)
    (h4 : lookupStream st s = some info)
    (h5 : (roomMembers st s).Nodup)
    (h6 : ∀ w ∈ info.viewers, w ∈ roomMembers st s ∧ w ≠ b) :
    lookupStream (handleDisconnect st b).1 s = none ∧
    ∀ w ∈ info.viewers,
      occCount (handleDisconnect st b).2 (w, ServerEvent.endStreamMsg) = 1 ∧
      occCount (handleDisconnect st b).2 (w, ServerEvent.streamStatus false) = 1 := by
  obtain ⟨hnone, hds⟩ := disconnect_broadcaster_spec st b s info h1 h2 h3 h4
  refine ⟨hnone, ?_⟩
  intro w hw
  obtain ⟨hwr, hwb⟩ := h6 w hw
  have hcnt : countId (exceptId (removeId (roomMembers st s) b) b) w = 1 := by
    rw [countId_exceptId_of_ne hwb, countId_removeId_of_ne hwb]
    exact countId_eq_one_of_nodup_mem h5 hwr
  constructor
  · rw [hds, occCount_append, occCount_map_pair,
        occCount_map_pair_ne _ w (by decide), hcnt]
  · rw [hds, occCount_append, occCount_map_pair,
        occCount_map_pair_ne _ w (by decide), hcnt]

/-- Witness for the amended C6 at a concrete state: b disconnects
while broadcasting s with viewer v; the session disappears and v
receives exactly one end-stream. -/
theorem C6_witness :
    lookupStream (handleDisconnect baseState "b").1 "s" = none ∧
    occCount (handleDisconnect baseState "b").2 ("v", ServerEvent.endStreamMsg) = 1 :=
  have h := C6_amended_broadcaster_disconnect baseState "b" "s" ⟨"b", ["v"], true⟩
    (by decide) (by decide) (by decide) (by decide) (by decide) (by decide)
  ⟨h.1, (h.2 "v" (by decide)).1⟩

/-- Every delivery of socket.broadcast.emit goes to a connection other
than the sender and carries the broadcast event. -/
theorem mem_gbroadcastAll {gs : GState} {sender : String} {ev : GEvent}
    {p : GDelivery} (h : p ∈ gbroadcastAll gs sender ev) :
    p.1 ∈ gs.connections.map (fun q => q.1) ∧ p.1 ≠ sender ∧ p.2 = ev := by
  rcases List.mem_map.mp h with ⟨m, hm, rfl⟩
  obtain ⟨hmem, hne⟩ := mem_exceptId.mp hm
  exact ⟨hmem, hne, rfl⟩

/-- socket.broadcast.emit reaches every connection other than the
sender. -/
theorem gbroadcastAll_covers {gs : GState} {sender : String} {ev : GEvent}
    {x : String} (hx : x ∈ gs.connections.map (fun q => q.1)) (hne : x ≠ sender) :
    (x, ev) ∈ gbroadcastAll gs sender ev :=
  List.mem_map.mpr ⟨x, mem_exceptId.mpr ⟨hx, hne⟩, rfl⟩

/-- Any delivery of socket.to(id).emit is to that id, with that
event. -/
theorem mem_gunicast {gs : GState} {target sender : String} {ev : GEvent}
    {p : GDelivery} (h : p ∈ gunicast gs target sender ev) : p = (target, ev) := by
  unfold gunicast at h
  split at h
  · exact List.mem_singleton.mp h
  · cases h

/-- socket.to(id).emit to an id that is not connected delivers
nothing. -/
theorem gunicast_not_connected {gs : GState} {target sender : String} {ev : GEvent}
    (h : gconnected gs target = false) : gunicast gs target sender ev = [] := by
  simp [gunicast, h]

/-- socket.to(id).emit to a connected id other than the sender does
deliver the event to that id. -/
theorem gunicast_covers {gs : GState} {target sender : String} {ev : GEvent}
    (h1 : gconnected gs target = true) (h2 : target ≠ sender) :
    (target, ev) ∈ gunicast gs target sender ev := by
  simp [gunicast, h1, h2]

/-- Counterexample to claim C3 as stated. In the global relay, with B
broadcasting the active stream, V its viewer and U a freshly
connected unassigned socket, the offer B sends is also delivered to U
— a connection outside the session receives it. In the room-keyed
relay, over the state where b broadcasts s to the registered viewer
v, the sent payload is forwarded verbatim: the delivery to v is
exactly the input record, which carries no fromId tagging of the
broadcaster (the SignalingData interface has no such field). -/
theorem C3_counterexample :
    alookup baseGState.connections "U" = some ⟨none, none⟩ ∧
    ("U", GEvent.offer "sdpX" "B") ∈ (ghandleOffer baseGState "B" "sdpX").2 ∧
    (handleOffer baseState "b" ⟨"offer", some "X", none, some "s", none⟩).2
      = [("v", ServerEvent.offer ⟨"offer", some "X", none, some "s", none⟩)] := by
  decide

/-- Claim C3 as amended. Global relay: the offer is wrapped with
broadcasterId = sender and delivered to every connected socket other
than the sender — so every viewer receives it tagged, but so does
every connection outside the session. Room-keyed relay: an offer
whose streamId names an existing session is forwarded unchanged —
with no fromId tag added — to exactly the members of the session room
other than the sender, and connections outside the room receive
nothing. -/
theorem C3_amended_offer_fanout :
    (∀ (gs : GState) (sid sdp : String),
        (∀ x, x ∈ gs.connections.map (fun q => q.1) → x ≠ sid →
            (x, GEvent.offer sdp sid) ∈ (ghandleOffer gs sid sdp).2) ∧
        (∀ p ∈ (ghandleOffer gs sid sdp).2,
            p.2 = GEvent.offer sdp sid ∧ p.1 ≠ sid)) ∧
    (∀ (st : ServerState) (sid s : String) (d : SignalingData),
        d.streamId = some s → s ≠ "" → (lookupStream st s).isSome →
        (∀ v, v ∈ roomMembers st s → v ≠ sid →
            (v, ServerEvent.offer d) ∈ (handleOffer st sid d).2) ∧
        (∀ p ∈ (handleOffer st sid d).2,
            p.1 ∈ roomMembers st s ∧ p.1 ≠ sid ∧ p.2 = ServerEvent.offer d)) := by
  constructor
  · intro gs sid sdp
    constructor
    · intro x hx hne
      exact gbroadcastAll_covers hx hne
    · intro p hp
      obtain ⟨-, hne, hev⟩ := mem_gbroadcastAll hp
      exact ⟨hev, hne⟩
  · intro st sid s d hd hs h
    have hds : (handleOffer st sid d).2 =
        (exceptId (roomMembers st s) sid).map (fun m => (m, ServerEvent.offer d)) := by
      simp [handleOffer, hd, hs, h, emitRoom]
    constructor
    · intro v hv hvne
      rw [hds]
      exact List.mem_map.mpr ⟨v, mem_exceptId.mpr ⟨hv, hvne⟩, rfl⟩
    · intro p hp
      rw [hds] at hp
      rcases List.mem_map.mp hp with ⟨m, hm, rfl⟩
      obtain ⟨hmem, hne⟩ := mem_exceptId.mp hm
      exact ⟨hmem, hne, rfl⟩

/-- Witness for the amended C3 at concrete states: in the global
relay the viewer V receives the tagged offer; in the room-keyed relay
the registered viewer v receives the forwarded offer. -/
theorem C3_witness :
    ("V", GEvent.offer "sdpX" "B") ∈ (ghandleOffer baseGState "B" "sdpX").2 ∧
    ("v", ServerEvent.offer ⟨"offer", some "X", none, some "s", none⟩)
      ∈ (handleOffer baseState "b" ⟨"offer", some "X", none, some "s", none⟩).2 :=
  ⟨(C3_amended_offer_fanout.1 baseGState "B" "sdpX").1 "V" (by decide) (by decide),
   (C3_amended_offer_fanout.2 baseState "b" "s" ⟨"offer", some "X", none, some "s", none⟩
      (by decide) (by decide) (by decide)).1 "v" (by decide) (by decide)⟩

/-- Counterexample to claim C8 as stated: in the global relay, V has
the viewer role while B is the broadcaster, yet an ice-candidate V
sends without a target id is broadcast to every other connected
socket — the unassigned connection U receives it — instead of being
delivered only to the broadcaster of the session. -/
theorem C8_counterexample :
    (alookup baseGState.connections "V").map (fun c => c.role)
      = some (some GRole.viewer) ∧
    (alookup baseGState.connections "B").map (fun c => c.role)
      = some (some GRole.broadcaster) ∧
    alookup baseGState.connections "U" = some ⟨none, none⟩ ∧
    ("U", GEvent.iceCandidate "cand" "V")
      ∈ (ghandleIceCandidate baseGState "V" "cand" none).2 := by
  decide

/-- Claim C8 as amended. Global relay: routing is purely target-based
— with a truthy toId the candidate goes to exactly that connection,
tagged fromId = sender: a connected target other than the sender
receives it, nothing is delivered to anyone else, and a target that
is not connected receives nothing silently (every delivery carries
the tagged candidate event, never an error); without a toId it is
broadcast to every other connected socket regardless of roles.
Room-keyed relay: routing is purely role-based — a candidate from the
socket flagged broadcaster is fanned out to the session room members
other than the sender, and a candidate from any other socket goes
only to the stored broadcaster. -/
theorem C8_amended_ice_routing :
    (∀ (gs : GState) (sid cand t : String), t ≠ "" →
        (∀ p ∈ (ghandleIceCandidate gs sid cand (some t)).2,
            p = (t, GEvent.iceCandidate cand sid)) ∧
        (gconnected gs t = true → t ≠ sid →
            (t, GEvent.iceCandidate cand sid)
              ∈ (ghandleIceCandidate gs sid cand (some t)).2) ∧
        (gconnected gs t = false → (ghandleIceCandidate gs sid cand (some t)).2 = [])) ∧
    (∀ (gs : GState) (sid cand : String),
        (∀ x, x ∈ gs.connections.map (fun q => q.1) → x ≠ sid →
            (x, GEvent.iceCandidate cand sid)
              ∈ (ghandleIceCandidate gs sid cand none).2) ∧
        (∀ p ∈ (ghandleIceCandidate gs sid cand none).2,
            p.2 = GEvent.iceCandidate cand sid ∧ p.1 ≠ sid)) ∧
    (∀ (st : ServerState) (sid s : String) (d : SignalingData) (info : StreamInfo),
        d.streamId = some s → s ≠ "" → lookupStream st s = some info →
        ((getConn st sid).isBroadcaster = true →
            ∀ v, v ∈ roomMembers st s → v ≠ sid →
              (v, ServerEvent.iceCandidate d) ∈ (handleIceCandidate st sid d).2) ∧
        ((getConn st sid).isBroadcaster = false →
            ∀ p ∈ (handleIceCandidate st sid d).2, p.1 = info.broadcasterId)) := by
  refine ⟨?_, ?_, ?_⟩
  · intro gs sid cand t ht
    have hds : (ghandleIceCandidate gs sid cand (some t)).2 =
        gunicast gs t sid (GEvent.iceCandidate cand sid) := by
      simp [ghandleIceCandidate, ht]
    refine ⟨?_, ?_, ?_⟩
    · intro p hp
      rw [hds] at hp
      exact mem_gunicast hp
    · intro hconn hne
      rw [hds]
      exact gunicast_covers hconn hne
    · intro hconn
      rw [hds]
      exact gunicast_not_connected hconn
  · intro gs sid cand
    have hds : (ghandleIceCandidate gs sid cand none).2 =
        gbroadcastAll gs sid (GEvent.iceCandidate cand sid) := by
      simp [ghandleIceCandidate]
    constructor
    · intro x hx hne
      rw [hds]
      exact gbroadcastAll_covers hx hne
    · intro p hp
      rw [hds] at hp
      obtain ⟨-, hne, hev⟩ := mem_gbroadcastAll hp
      exact ⟨hev, hne⟩
  · intro st sid s d info hd hs h
    constructor
    · intro hb v hv hvne
      have hds : (handleIceCandidate st sid d).2 =
          (exceptId (roomMembers st s) sid).map
            (fun m => (m, ServerEvent.iceCandidate d)) := by
        simp [handleIceCandidate, hd, hs, h, hb, emitRoom]
      rw [hds]
      exact List.mem_map.mpr ⟨v, mem_exceptId.mpr ⟨hv, hvne⟩, rfl⟩
    · intro hb p hp
      have hds : (handleIceCandidate st sid d).2 =
          emitTo st info.broadcasterId
            (ServerEvent.iceCandidate { d with viewerId := some sid }) := by
        simp [handleIceCandidate, hd, hs, h, hb]
      rw [hds] at hp
      unfold emitTo at hp
      split at hp
      · rw [List.mem_singleton.mp hp]
      · cases hp

/-- Witness for the amended C8 at concrete inputs: a candidate
targeted at the connected B is actually delivered to B; one targeted
at a gone peer is dropped with no delivery at all; one sent by B with
no target reaches the unrelated connected socket U; and a candidate
of the registered viewer v in the room-keyed relay is delivered only
to the stored broadcaster b. -/
theorem C8_witness :
    ("B", GEvent.iceCandidate "cand" "V")
      ∈ (ghandleIceCandidate baseGState "V" "cand" (some "B")).2 ∧
    (ghandleIceCandidate baseGState "V" "cand" (some "ghost")).2 = [] ∧
    ("U", GEvent.iceCandidate "c2" "B")
      ∈ (ghandleIceCandidate baseGState "B" "c2" none).2 ∧
    (∀ p ∈ (handleIceCandidate baseState "v"
        ⟨"ice-candidate", none, some "c1", some "s", none⟩).2, p.1 = "b") :=
  have hg := C8_amended_ice_routing.1 baseGState "V" "cand" "B" (by decide)
  have hg2 := C8_amended_ice_routing.1 baseGState "V" "cand" "ghost" (by decide)
  have hg3 := C8_amended_ice_routing.2.1 baseGState "B" "c2"
  have hr := C8_amended_ice_routing.2.2 baseState "v" "s"
    ⟨"ice-candidate", none, some "c1", some "s", none⟩ ⟨"b", ["v"], true⟩
    (by decide) (by decide) (by decide)
  ⟨hg.2.1 (by decide) (by decide), hg2.2.2 (by decide),
   hg3.1 "U" (by decide) (by decide), hr.2 (by decide)⟩

end LiveStream
